import Mathlib

/-!
Verification development for the ticket assignment engine
(`ticket_ai_agents/assignment_engine/customized_assignment_engine.py`).

The engine is shallowly embedded: every scoring function is translated from
the Python source into an executable Lean definition over exact rational
arithmetic (`Rat`), except the similarity score, which uses the natural
logarithm and is therefore stated over the reals.  Database access, the
LLM skill extractor and the wall clock are oracles from the point of view
of the engine; they are modelled as explicit inputs (booleans, lists,
and a UTC hour-of-day parameter), exactly as the spec describes them.
-/

namespace TicketAI

/-- A row of the result of `search_similar_tickets`, as consumed by the
engine: a similarity score and the email of the past assignee. -/
structure SimilarTicket where
  similarity_score : Rat
  assignee_email : String
deriving DecidableEq

/-- An active ticket of a team member, used for the workload score.
`ageDays` models `(now - ticket.created_at).days` from the source. -/
structure ActiveTicket where
  priority : String
  status : String
  ageDays : Int
deriving DecidableEq

/-- The `ticket_details` dictionary: fields are optional because the source
reads them with `dict.get`. -/
structure TicketDetails where
  ticket_id : Option String
  title : Option String
  priority : Option String
deriving DecidableEq

/-- The slice of a `TeamMember` row that the engine reads. -/
structure TeamMemberInfo where
  email : String
  name : String
  timezone : Option String
  skills : List String
deriving DecidableEq

/-- An evaluated assignment candidate, as produced by
`_evaluate_candidate_optimized` and consumed by the sort in step 3 and by
`_apply_business_rules`.  Mirrors the `AssignmentCandidate` dataclass. -/
structure Candidate where
  member_email : String
  member_name : String
  timezone : String
  similarity_score : Rat
  skill_match_score : Rat
  availability_score : Rat
  workload_score : Rat
  timezone_score : Rat
  final_score : Rat
  solved_similar_count : Nat
  recent_assignments_count : Nat
  is_overloaded : Bool
deriving DecidableEq

/-- One entry of `decision.human_review_triggers`, mirroring the trigger
dictionary built by `_trigger_human_review`. -/
structure Trigger where
  reason : String
  severity : String
  ticket_id : Option String
  ticket_title : Option String
  action : Option String
  timeout : Option String
  message : Option String
deriving DecidableEq

/-- The `AssignmentDecision` dataclass, restricted to the fields the claims
talk about. -/
structure Decision where
  assignment_type : String
  primary_assignee : Option String
  confidence_score : Rat
  all_candidates : List Candidate
  business_rules_applied : List String
  human_review_triggers : List Trigger
  ticket_id : Option String
deriving DecidableEq

/-- Python substring containment (`pat in s`) on character lists. -/
def charsContain (pat : List Char) : List Char → Bool
  | [] => pat.isEmpty
  | c :: rest => pat.isPrefixOf (c :: rest) || charsContain pat rest

/-- Python substring containment (`pat in s`) on strings. -/
def strContains (s pat : String) : Bool :=
  charsContain pat.data s.data

/-- `max(..., default=0.0)` over the similarity scores of `similar_tickets`
(step 1 of `assign_ticket`). -/
def maxSimilarity (similarTickets : List SimilarTicket) : Rat :=
  ((similarTickets.map (·.similarity_score)).max?).getD 0

/-- One row of the weight matrix from `_load_weight_config`. -/
structure Weights where
  similarity : Rat
  skill : Rat
  availability : Rat
  workload : Rat
  timezone : Rat
deriving DecidableEq

/-- The `"Medium"` row of `_load_weight_config`. -/
def mediumWeights : Weights :=
  { similarity := 1/5, skill := 1/4, availability := 1/5, workload := 1/5, timezone := 3/20 }

/-- `self.weight_config.get(priority, self.weight_config["Medium"])`:
the priority-conditioned weight rows of `_load_weight_config`, with the
dictionary-lookup fallback to the `"Medium"` row. -/
def weightsFor (priority : String) : Weights :=
  if priority = "Critical" then
    { similarity := 1/4, skill := 3/20, availability := 3/20, workload := 1/10, timezone := 7/20 }
  else if priority = "High" then
    { similarity := 1/4, skill := 3/20, availability := 3/20, workload := 3/20, timezone := 3/10 }
  else if priority = "Medium" then
    mediumWeights
  else if priority = "Low" then
    { similarity := 3/20, skill := 3/20, availability := 3/20, workload := 2/5, timezone := 3/20 }
  else
    mediumWeights

/-- Result record of `_calculate_availability_score_optimized`. -/
structure AvailabilityResult where
  score : Rat
  available : Bool
  reason : String
deriving DecidableEq

/-- `_calculate_availability_score_optimized`: hard blockers (PTO, regional
holiday), then the priority-indexed global-holiday override, else fully
available. -/
def calculateAvailabilityScore (ptoStatus regionalHoliday globalHoliday : Bool)
    (ticketPriority : String) : AvailabilityResult :=
  if ptoStatus then
    { score := 0, available := false, reason := "On PTO/TimeOff" }
  else if regionalHoliday then
    { score := 0, available := false, reason := "Regional public holiday" }
  else if globalHoliday then
    let score : Rat :=
      if ticketPriority = "Critical" then 1/2
      else if ticketPriority = "High" then 3/10
      else if ticketPriority = "Medium" then 0
      else if ticketPriority = "Low" then 0
      else 0
    if 0 < score then
      { score := score, available := true,
        reason := "Global holiday (emergency override for " ++ ticketPriority ++ " priority)" }
    else
      { score := 0, available := false,
        reason := "Global holiday (" ++ ticketPriority ++ " priority can wait)" }
  else
    { score := 1, available := true, reason := "Available" }

/-- `priority_weights.get(ticket.priority, 1.0)` from
`_calculate_workload_score_optimized`. -/
def priorityWeight (p : String) : Rat :=
  if p = "Critical" then 3
  else if p = "High" then 2
  else if p = "Medium" then 1
  else if p = "Low" then 1/2
  else 1

/-- The age factor of `_calculate_workload_score_optimized`. -/
def agePenalty (ageDays : Int) : Rat :=
  if 7 < ageDays then 3/2
  else if 3 < ageDays then 6/5
  else 1

/-- The status factor of `_calculate_workload_score_optimized`. -/
def statusWeight (status : String) : Rat :=
  if status = "Blocked" ∨ status = "Waiting" then 3/10
  else if status = "In Progress" then 1
  else 1/2

/-- Effective load of a single active ticket: priority weight times age
penalty times status weight times the (constant) complexity factor. -/
def ticketLoad (t : ActiveTicket) : Rat :=
  priorityWeight t.priority * agePenalty t.ageDays * statusWeight t.status * 1

/-- Result record of `_calculate_workload_score_optimized`. -/
structure WorkloadResult where
  score : Rat
  weighted_workload : Rat
  is_overloaded : Bool
deriving DecidableEq

/-- `_calculate_workload_score_optimized`: empty active set is fully free;
otherwise the inverse of the accumulated effective workload against the
team capacity of 30, with the overload flag at 80 percent of capacity. -/
def calculateWorkloadScore (activeTickets : List ActiveTicket) : WorkloadResult :=
  if activeTickets.isEmpty then
    { score := 1, weighted_workload := 0, is_overloaded := false }
  else
    let effectiveWorkload := (activeTickets.map ticketLoad).sum
    let workloadScore := max 0 (1 - effectiveWorkload / 30)
    { score := min workloadScore 1,
      weighted_workload := effectiveWorkload,
      is_overloaded := decide (30 * (4/5 : Rat) ≤ effectiveWorkload) }

/-- `member.skills` lookup of `_get_member_skills`, with the fallback skill
set for members with no declared skills (lowercasing and deduplication of
the database rows happen before this point). -/
def getMemberSkills (memberSkills : List String) : List String :=
  if memberSkills.isEmpty then ["troubleshooting", "documentation"] else memberSkills

/-- `_calculate_skill_match_score_cached`: per-category match ratios with
the hard floor of 0.2 when at least half of the critical skills are
missing, and neutral priors of 0.5 for empty categories. -/
def calculateSkillMatchScore (memberSkills criticalSkills importantSkills niceToHave : List String) : Rat :=
  let ms := getMemberSkills memberSkills
  let criticalMatch : Rat :=
    ((criticalSkills.countP (fun s => ms.contains s) : Nat) : Rat) / ((max criticalSkills.length 1 : Nat) : Rat)
  if criticalMatch < 1/2 ∧ ¬criticalSkills.isEmpty then 1/5
  else
    let importantMatch : Rat :=
      if importantSkills.isEmpty then 1/2
      else ((importantSkills.countP (fun s => ms.contains s) : Nat) : Rat) / ((max importantSkills.length 1 : Nat) : Rat)
    let niceMatch : Rat :=
      if niceToHave.isEmpty then 1/2
      else ((niceToHave.countP (fun s => ms.contains s) : Nat) : Rat) / ((max niceToHave.length 1 : Nat) : Rat)
    min (criticalMatch * (3/5) + importantMatch * (3/10) + niceMatch * (1/10)) 1

/-- The sublist of `similar_tickets` previously resolved by this member
(the filter at the top of `_calculate_similarity_score`). -/
def memberSimilar (memberEmail : String) (similarTickets : List SimilarTicket) : List SimilarTicket :=
  similarTickets.filter (fun t => t.assignee_email = memberEmail)

/-- `_calculate_similarity_score`: logarithmic expertise factor combined
with the mean similarity of the tickets this member solved, clamped to 1.
Stated over the reals because the source uses `math.log`. -/
noncomputable def calculateSimilarityScore (memberEmail : String)
    (similarTickets : List SimilarTicket) : Real :=
  let ms := memberSimilar memberEmail similarTickets
  if ms.isEmpty then 0
  else
    let solvedCount := ms.length
    let expertiseFactor := min (Real.log (solvedCount + 1) / Real.log 6) 1
    let avgSimilarity := ((ms.map (fun t => ((t.similarity_score : Rat) : Real))).sum) / (solvedCount : Real)
    min (expertiseFactor * (3/10) + avgSimilarity * (7/10)) 1

/-- Number of entries of `similar_tickets` whose past assignee is this
member; the quantity the spec calls `solved_similar`. -/
def countMemberHits (memberEmail : String) (similarTickets : List SimilarTicket) : Nat :=
  (memberSimilar memberEmail similarTickets).length

/-- Membership of the current UTC hour in the morning overlap window
(`MORNING_OVERLAP_START_UTC <= h < MORNING_OVERLAP_END_UTC`). -/
def inMorningOverlap (hour : Rat) : Prop := 1/2 ≤ hour ∧ hour < 5/2

/-- Membership of the current UTC hour in the evening overlap window
(`EVENING_OVERLAP_START_UTC <= h < EVENING_OVERLAP_END_UTC`). -/
def inEveningOverlap (hour : Rat) : Prop := 12 ≤ hour ∧ hour < 29/2

instance (hour : Rat) : Decidable (inMorningOverlap hour) := by
  unfold inMorningOverlap; infer_instance

instance (hour : Rat) : Decidable (inEveningOverlap hour) := by
  unfold inEveningOverlap; infer_instance

/-- The window and zone classification table of
`_calculate_timezone_score`: base score by time window (morning overlap,
evening overlap, IST-only, US-only) and member zone. -/
def timezoneBase (hour : Rat) (isIst isUs : Bool) : Rat :=
  if inMorningOverlap hour then
    if isIst then 17/20 else if isUs then 1 else 3/5
  else if inEveningOverlap hour then
    if isIst then 1 else if isUs then 17/20 else 3/5
  else if 5/2 ≤ hour ∧ hour < 12 then
    if isIst then 1 else if isUs then 1/2 else 2/5
  else
    if isUs then 1 else if isIst then 1/2 else 2/5

/-- The strict enforcement step of `_calculate_timezone_score` for
Critical and High priorities: scores of exactly 0.5 drop to 0.3 and of
exactly 0.4 drop to 0.2. -/
def strictUrgent (priority : Option String) (base : Rat) : Rat :=
  if priority = some "Critical" ∨ priority = some "High" then
    if base = 1/2 then 3/10
    else if base = 2/5 then 1/5
    else base
  else base

/-- The cross-timezone expertise adjustment of
`_calculate_timezone_score`, applied when the solved-similar count is at
least 3: Medium/Low floor the score at 0.85 inside an overlap window and
force it to 0.4 outside when below 0.75; Critical/High raise a score in
[0.3, 0.6) to 0.6. -/
def expertiseAdjust (hour : Rat) (priority : Option String) (solvedSimilarCount : Nat)
    (s : Rat) : Rat :=
  if 3 ≤ solvedSimilarCount then
    if priority = some "Medium" ∨ priority = some "Low" then
      if inMorningOverlap hour ∨ inEveningOverlap hour then
        if s < 17/20 then 17/20 else s
      else if 3/4 ≤ s then s
      else 2/5
    else if priority = some "Critical" ∨ priority = some "High" then
      if s < 3/5 ∧ 3/10 ≤ s then 3/5 else s
    else s
  else s

/-- `_calculate_timezone_score`: window classification, zone match, strict
enforcement for urgent priorities, and the cross-timezone expertise
adjustment, in source order.  `priority` is `ticket_details.get("priority")`,
hence optional; `hour` is the current UTC hour-of-day as a rational. -/
def calculateTimezoneScore (hour : Rat) (memberTz : String) (priority : Option String)
    (solvedSimilarCount : Nat) : Rat :=
  let isIst := strContains memberTz "Asia/Kolkata" || strContains memberTz "Asia/Calcutta"
    || strContains memberTz "Asia/"
  let isUs := strContains memberTz "America/" || strContains memberTz "US/"
  expertiseAdjust hour priority solvedSimilarCount
    (strictUrgent priority (timezoneBase hour isIst isUs))

/-- An evaluated candidate as returned by `_evaluate_candidate_optimized`.
The similarity and final scores are real numbers because the similarity
score uses `math.log`; all other components are exact rationals. -/
structure EvalCandidate where
  member_email : String
  member_name : String
  timezone : String
  similarity_score : Real
  skill_match_score : Rat
  availability_score : Rat
  workload_score : Rat
  timezone_score : Rat
  final_score : Real
  solved_similar_count : Nat
  recent_assignments_count : Nat
  active_tickets_count : Nat
  weighted_workload : Rat
  is_overloaded : Bool

/-- `_evaluate_candidate_optimized`: computes the five component scores
from the pre-fetched oracle data and combines them with the weight row.
The dataclass field `solved_similar_count` starts at its default `0` and is
never reassigned before it is passed to `_calculate_timezone_score`, which
this embedding mirrors. -/
noncomputable def evaluateCandidate (hour : Rat) (member : TeamMemberInfo)
    (ptoStatus regionalHoliday globalHoliday : Bool)
    (activeTickets : List ActiveTicket) (recentAssignmentsCount : Nat)
    (ticket : TicketDetails) (similarTickets : List SimilarTicket)
    (weights : Weights)
    (criticalSkills importantSkills niceToHave : List String) : EvalCandidate :=
  let solvedSimilarCount : Nat := 0
  let similarity := calculateSimilarityScore member.email similarTickets
  let skillMatch := calculateSkillMatchScore member.skills criticalSkills importantSkills niceToHave
  let ticketPriority := ticket.priority.getD "Medium"
  let availability := calculateAvailabilityScore ptoStatus regionalHoliday globalHoliday ticketPriority
  let workload := calculateWorkloadScore activeTickets
  let timezoneScore := calculateTimezoneScore hour (member.timezone.getD "UTC") ticket.priority solvedSimilarCount
  { member_email := member.email
    member_name := member.name
    timezone := member.timezone.getD "UTC"
    similarity_score := similarity
    skill_match_score := skillMatch
    availability_score := availability.score
    workload_score := workload.score
    timezone_score := timezoneScore
    final_score := similarity * ((weights.similarity : Rat) : Real)
      + ((skillMatch * weights.skill : Rat) : Real)
      + ((availability.score * weights.availability : Rat) : Real)
      + ((workload.score * weights.workload : Rat) : Real)
      + ((timezoneScore * weights.timezone : Rat) : Real)
    solved_similar_count := solvedSimilarCount
    recent_assignments_count := recentAssignmentsCount
    active_tickets_count := activeTickets.length
    weighted_workload := workload.weighted_workload
    is_overloaded := workload.is_overloaded }

/-- The comparison used by step 3 of `assign_ticket`:
`candidates.sort(key=lambda x: x.final_score, reverse=True)` orders by
descending final score; Python `list.sort` is stable. -/
def candidateLE (a b : Candidate) : Bool :=
  decide (b.final_score ≤ a.final_score)

/-- Step 3 of `assign_ticket`: the stable descending sort by final score. -/
def rankCandidates (candidates : List Candidate) : List Candidate :=
  candidates.mergeSort candidateLE

/-- `_trigger_human_review`: builds a `human_review` decision carrying one
trigger whose action, timeout and message are indexed by the severity. -/
def triggerHumanReview (ticketId ticketTitle : Option String)
    (reason severity : String) : Decision :=
  let base : Trigger :=
    { reason := reason, severity := severity, ticket_id := ticketId,
      ticket_title := ticketTitle, action := none, timeout := none, message := none }
  let trigger : Trigger :=
    if severity = "critical" then
      { base with
        action := some "immediate_manager_escalation"
        message := some "Team at capacity or critical issue requires immediate attention" }
    else if severity = "high" then
      { base with
        action := some "team_consultation_email"
        timeout := some "1 hour"
        message := some "No similar pattern found - team input needed" }
    else if severity = "medium" then
      { base with
        action := some "team_lead_review"
        timeout := some "15 minutes"
        message := some "Low confidence assignment - team lead review requested" }
    else base
  { assignment_type := "human_review", primary_assignee := none, confidence_score := 0,
    all_candidates := [], business_rules_applied := [], human_review_triggers := [trigger],
    ticket_id := ticketId }

/-- The availability filter of rule 1 of `_apply_business_rules`: not
overloaded, actually available, and with enough free capacity. -/
def overloadRulePred (c : Candidate) : Bool :=
  !c.is_overloaded && decide (0 < c.availability_score) && decide (1/2 ≤ c.workload_score)

/-- The condition under which rule 1 of `_apply_business_rules` fires. -/
def overloadRuleFires (top : Candidate) : Bool :=
  top.is_overloaded || decide (top.workload_score < 3/10)

/-- Rule 1 of `_apply_business_rules`: if the top candidate is overloaded
or too busy, the first candidate of the ranked list passing
`overloadRulePred` replaces it; `none` means everyone is at capacity and
the engine escalates. -/
def r1Select (c0 : Candidate) (rest : List Candidate) : Option Candidate :=
  if overloadRuleFires c0 then
    ((c0 :: rest).filter overloadRulePred).head?
  else some c0

/-- `_get_preferred_timezone`: IST during `2.5 <= h <= 14.5` UTC
(both bounds inclusive in the source), US otherwise. -/
def preferredTimezone (hour : Rat) : String :=
  if 5/2 ≤ hour ∧ hour ≤ 29/2 then "IST" else "US"

/-- `_check_timezone_match`: coarse prefix classification of the member
timezone string against the preferred zone. -/
def checkTimezoneMatch (c : Candidate) (preferred : String) : Bool :=
  let isIst := strContains c.timezone "Asia/"
  let isUs := strContains c.timezone "America/" || strContains c.timezone "US/"
  if preferred = "IST" then isIst
  else if preferred = "US" then isUs
  else false

/-- `_calculate_confidence`: the mean of five boolean sanity factors. -/
def calculateConfidence (top : Candidate) (allCandidates : List Candidate) : Rat :=
  let factors : List Bool :=
    [ decide (7/10 < top.similarity_score),
      decide (1/2 < top.skill_match_score),
      decide (7/10 < top.availability_score),
      decide (1 < allCandidates.length) &&
        (match allCandidates with
         | _ :: second :: _ => decide (3/20 < top.final_score - second.final_score)
         | _ => false),
      decide (1 ≤ top.timezone_score) ]
  ((factors.countP id : Nat) : Rat) / ((factors.length : Nat) : Rat)

/-- Outcome of `_apply_business_rules` before it is packaged into an
`AssignmentDecision`: either a human-review escalation or an assignment to
a concrete candidate with the applied-rule tags and the confidence. -/
inductive RulesOutcome where
  | review (reason severity : String)
  | assigned (top : Candidate) (rulesApplied : List String) (confidence : Rat)
deriving DecidableEq

/-- The firing condition of rule 2 of `_apply_business_rules`: the current
top does not match the preferred zone and is a similarity expert. -/
def r2Fires (preferred : String) (top1 : Candidate) : Bool :=
  !(checkTimezoneMatch top1 preferred) && decide (7/10 < top1.similarity_score)

/-- Rule 2 of `_apply_business_rules` (timezone versus expertise): when it
fires, the best in-zone candidate replaces the top unless the expert leads
by more than 0.30 of final score; with no in-zone candidate the top is
kept. -/
def r2Apply (preferred : String) (candidates : List Candidate) (top1 : Candidate) : Candidate :=
  if r2Fires preferred top1 then
    match candidates.filter (fun c => checkTimezoneMatch c preferred) with
    | [] => top1
    | bestInTz :: _ =>
      if 3/10 < top1.final_score - bestInTz.final_score then top1 else bestInTz
  else top1

/-- The firing condition of rule 3 of `_apply_business_rules`: five or
more assignments in the trailing seven days. -/
def r3Fires (top2 : Candidate) : Bool :=
  decide (5 ≤ top2.recent_assignments_count)

/-- The scan of rule 3: `candidates[1:5]` restricted to candidates with
fewer than five recent assignments and positive availability. -/
def fairAlternatives (candidates : List Candidate) : List Candidate :=
  ((candidates.drop 1).take 4).filter
    (fun c => decide (c.recent_assignments_count < 5) && decide (0 < c.availability_score))

/-- Rule 3 of `_apply_business_rules` (fair distribution): when it fires
and an alternative exists in positions 2 to 5, the first one replaces the
top. -/
def r3Apply (candidates : List Candidate) (top2 : Candidate) : Candidate :=
  if r3Fires top2 then
    match fairAlternatives candidates with
    | [] => top2
    | lessLoaded :: _ => lessLoaded
  else top2

/-- `_apply_business_rules` on the ranked candidate list `c0 :: rest`
(the source indexes `candidates[0]`, so the list is nonempty there):
rule 1 (overload prevention), rule 2 (timezone versus expertise), rule 3
(fair distribution), rule 4 (skills-gap flag) and rule 7 (confidence
gate), in source order.  Rules 5 and 6 are commented out in the source.
Each rule appends its tag exactly when its condition fires, as in the
source, where the tag is appended inside the same conditional branch. -/
def businessRulesCore (hour : Rat) (c0 : Candidate) (rest : List Candidate) : RulesOutcome :=
  let candidates := c0 :: rest
  match r1Select c0 rest with
  | none => .review "team_at_capacity" "critical"
  | some top1 =>
    let tags1 : List String := if overloadRuleFires c0 then ["overload_prevention"] else []
    let preferred := preferredTimezone hour
    let top2 := r2Apply preferred candidates top1
    let tags2 := if r2Fires preferred top1 then tags1 ++ ["timezone_vs_expertise"] else tags1
    let top3 := r3Apply candidates top2
    let tags3 := if r3Fires top2 then tags2 ++ ["fair_distribution"] else tags2
    let tags4 := if top3.skill_match_score < 1/4 then tags3 ++ ["skills_gap_detected"] else tags3
    let confidence := calculateConfidence top3 candidates
    if confidence < 3/10 then .review "low_confidence_assignment" "medium"
    else
      let tags5 := if confidence < 1/2 then tags4 ++ ["team_lead_notification"] else tags4
      .assigned top3 tags5 confidence

/-- `_apply_business_rules` packaged as an `AssignmentDecision`: the
collaboration flag is always false in the source, so a non-escalated
outcome is a `normal` decision assigning the selected top candidate. -/
def applyBusinessRules (hour : Rat) (ticket : TicketDetails)
    (c0 : Candidate) (rest : List Candidate) : Decision :=
  match businessRulesCore hour c0 rest with
  | .review reason severity => triggerHumanReview ticket.ticket_id ticket.title reason severity
  | .assigned top tags confidence =>
    { assignment_type := "normal", primary_assignee := some top.member_email,
      confidence_score := confidence, all_candidates := c0 :: rest,
      business_rules_applied := tags, human_review_triggers := [],
      ticket_id := ticket.ticket_id }

/-- `assign_ticket` with candidate evaluation abstracted at the oracle
boundary: the evaluated candidate list is an input.  Step 1 is the
similarity gate, step 2 the emptiness check, step 3 the ranking, steps 4
and 5 the business rules producing the decision. -/
def assignTicketWith (hour : Rat) (ticket : TicketDetails)
    (similarTickets : List SimilarTicket) (candidates : List Candidate) : Decision :=
  if maxSimilarity similarTickets < 7/10 then
    triggerHumanReview ticket.ticket_id ticket.title "no_similar_pattern" "high"
  else if candidates.isEmpty then
    triggerHumanReview ticket.ticket_id ticket.title "no_available_members" "critical"
  else
    match rankCandidates candidates with
    | [] => triggerHumanReview ticket.ticket_id ticket.title "no_available_members" "critical"
    | c :: cs => applyBusinessRules hour ticket c cs

/-- Modelled from the spec: priority canonicalization of the wire values
(spec section 6, "Priority levels on the wire").  The engine entry in
`src` receives `ticket_details` from the assignment tool wrapper
`ticket_ai_agents/tools/assign_ticket.py`, which is imported by the
assignment agent but is not among the provided source files; the spec
requires the five ServiceNow wire strings to be canonicalized to
`{Critical, High, Medium, Low}` with `Planning -> Low`, and unknown
values to be downgraded to `Medium`. -/
def canonicalizePriority (wire : String) : String :=
  if wire = "1 - Critical" then "Critical"
  else if wire = "2 - High" then "High"
  else if wire = "3 - Medium" then "Medium"
  else if wire = "4 - Low" then "Low"
  else if wire = "5 - Planning" then "Low"
  else "Medium"

/-- The sum of one weight row; the spec requires each row to sum to 1. -/
def wsum (w : Weights) : Rat :=
  w.similarity + w.skill + w.availability + w.workload + w.timezone

/-- The per-ticket effective load exactly as the words of claim C6 give
it: priority weight (Critical 3.0, High 2.0, Medium 1.0, Low 0.5) times
age penalty (1.5 over 7 days, 1.2 over 3 days, else 1.0) times status
weight (0.3 for Blocked or Waiting, 1.0 for InProgress, 0.5 for
Open/Pending), written against the title-case status vocabulary the spec
declares for section 4.6. -/
def specTicketLoad (t : ActiveTicket) : Rat :=
  (if t.priority = "Critical" then 3
   else if t.priority = "High" then 2
   else if t.priority = "Medium" then 1
   else 1/2) *
  (if 7 < t.ageDays then 3/2 else if 3 < t.ageDays then 6/5 else 1) *
  (if t.status = "Blocked" ∨ t.status = "Waiting" then 3/10
   else if t.status = "In Progress" then 1
   else 1/2)

/-- Total load of claim C6: the sum of the per-ticket effective loads. -/
def specTotalLoad (tickets : List ActiveTicket) : Rat :=
  (tickets.map specTicketLoad).sum

/-- The weight matrix exactly as published in spec section 4.2, written
with the decimal literals of the spec table. -/
def specWeightRow (priority : String) : Weights :=
  if priority = "Critical" then
    { similarity := 0.25, skill := 0.15, availability := 0.15, workload := 0.10, timezone := 0.35 }
  else if priority = "High" then
    { similarity := 0.25, skill := 0.15, availability := 0.15, workload := 0.15, timezone := 0.30 }
  else if priority = "Low" then
    { similarity := 0.15, skill := 0.15, availability := 0.15, workload := 0.40, timezone := 0.15 }
  else
    { similarity := 0.20, skill := 0.25, availability := 0.20, workload := 0.20, timezone := 0.15 }

/-- Concrete ticket used by the concrete counterexample runs. -/
def tktDemo : TicketDetails := ⟨some "T-1001", some "demo ticket", some "Medium"⟩

/-- Concrete similar-ticket list passing the similarity gate. -/
def simDemo : List SimilarTicket := [⟨9/10, "alice@example.com"⟩]

/-- Candidate used to falsify the tie-break part of claim C2: same final
score as `candB` but a lower availability score, placed first. -/
def candA : Candidate :=
  ⟨"a@example.com", "A", "Asia/Kolkata", 1/2, 1/2, 0, 1, 1, 1/2, 0, 0, false⟩

/-- Candidate used to falsify the tie-break part of claim C2: wins the
claimed availability tie-break against `candA` but is placed second. -/
def candB : Candidate :=
  ⟨"b@example.com", "B", "Asia/Kolkata", 1/2, 1/2, 1, 1, 1, 1/2, 0, 0, false⟩

/-- Top-ranked candidate for the claim C3 counterexample: healthy
workload but seven recent assignments, so rule 3 will displace it. -/
def cAlice : Candidate :=
  ⟨"alice@example.com", "Alice", "Asia/Kolkata", 9/10, 9/10, 1, 3/5, 1, 9/10, 0, 7, false⟩

/-- Second-ranked candidate for the claim C3 counterexample: rule 3 swaps
it in although its workload score is 0.1, below the 0.3 overload-safety
threshold. -/
def cBob : Candidate :=
  ⟨"bob@example.com", "Bob", "Asia/Kolkata", 9/10, 9/10, 1, 1/10, 1, 4/5, 0, 0, false⟩

/-- Top-ranked candidate for the claim C4 counterexample: six recent
assignments. -/
def dAlice : Candidate :=
  ⟨"alice4@example.com", "Alice4", "Asia/Kolkata", 9/10, 9/10, 1, 4/5, 1, 9/10, 0, 6, false⟩

/-- Second-ranked candidate for the claim C4 counterexample: five recent
assignments, fewer than the top candidate but not below the absolute
threshold of rule 3, so no swap happens. -/
def dBob : Candidate :=
  ⟨"bob4@example.com", "Bob4", "Asia/Kolkata", 9/10, 9/10, 1, 4/5, 1, 4/5, 0, 5, false⟩

/-- Team member for the claim C5 failing input: an expert outside both
the IST and the US zones. -/
def chrisMember : TeamMemberInfo :=
  ⟨"chris@example.com", "Chris", some "Europe/Berlin", ["troubleshooting"]⟩

/-- Ticket for the claim C5 failing input: Medium priority. -/
def tktC5 : TicketDetails := ⟨some "T-5", some "cross timezone demo", some "Medium"⟩

/-- Similar tickets for the claim C5 failing input: three hits previously
resolved by the member, so the spec requires the expertise adjustment. -/
def simC5 : List SimilarTicket :=
  [⟨4/5, "chris@example.com"⟩, ⟨4/5, "chris@example.com"⟩, ⟨4/5, "chris@example.com"⟩]

/-- Concrete active tickets for the claim C6 witness. -/
def ticketsC6 : List ActiveTicket :=
  [⟨"Critical", "In Progress", 10⟩, ⟨"Low", "Open", 1⟩, ⟨"Medium", "Blocked", 5⟩]

/-- Concrete healthy candidate used by witness theorems of claims C3 and
C4: passes every business rule unchanged. -/
def wCand : Candidate :=
  ⟨"w@example.com", "W", "Asia/Kolkata", 9/10, 9/10, 1, 4/5, 1, 9/10, 0, 0, false⟩

/-- Concrete member for the claim C10 witness. -/
def memberW : TeamMemberInfo :=
  ⟨"w10@example.com", "W10", some "America/New_York", ["aws"]⟩

/-- Concrete similar tickets for the claim C10 witness. -/
def simW : List SimilarTicket := [⟨4/5, "w10@example.com"⟩, ⟨7/10, "other@example.com"⟩]

/-- Helper: a ticket load equals the claim-side formula whenever the
ticket priority is one of the four canonical levels (the status factors
agree on every status string). -/
theorem ticketLoad_eq_spec (t : ActiveTicket)
    (hp : t.priority = "Critical" ∨ t.priority = "High" ∨
      t.priority = "Medium" ∨ t.priority = "Low") :
    ticketLoad t = specTicketLoad t := by
  rcases hp with hp | hp | hp | hp <;>
    simp [ticketLoad, specTicketLoad, priorityWeight, agePenalty, statusWeight, hp]

/-- C1.  For every call of the engine in which the maximum similarity
score over the similar tickets (0 when the list is empty) is strictly
below 0.70, the returned decision is a human-review decision with no
primary assignee, the trigger reason `no_similar_pattern`, severity
`high`, recommended action `team_consultation_email` and timeout
`1 hour`, and the decision carries no candidates. -/
theorem C1_similarity_gate (hour : Rat) (ticket : TicketDetails)
    (similarTickets : List SimilarTicket) (candidates : List Candidate)
    (h : maxSimilarity similarTickets < 7/10) :
    assignTicketWith hour ticket similarTickets candidates =
      ⟨"human_review", none, 0, [], [],
        [⟨"no_similar_pattern", "high", ticket.ticket_id, ticket.title,
          some "team_consultation_email", some "1 hour",
          some "No similar pattern found - team input needed"⟩],
        ticket.ticket_id⟩ := by
  unfold assignTicketWith
  rw [if_pos h]
  rfl

/-- Witness for C1 at a concrete input: the empty similar-ticket list is
below the gate and yields a human-review decision. -/
theorem C1_similarity_gate_witness :
    maxSimilarity [] < 7/10 ∧
    (assignTicketWith 0 ⟨none, none, none⟩ [] []).assignment_type = "human_review" :=
  ⟨by norm_num [maxSimilarity],
   by rw [C1_similarity_gate 0 ⟨none, none, none⟩ [] [] (by norm_num [maxSimilarity])]⟩

/-- Counterexample to C2.  The source sorts only by `final_score`
(`candidates.sort(key=lambda x: x.final_score, reverse=True)`); no
tie-break on availability, skill or email exists.  Here `candA` and
`candB` have equal final scores and `candB` wins the claimed tie-break
chain on availability, yet the ranked list keeps `candA` first. -/
theorem C2_tie_break_counterexample :
    rankCandidates [candA, candB] = [candA, candB] ∧
    candA.final_score = candB.final_score ∧
    candA.availability_score < candB.availability_score := by
  refine ⟨?_, rfl, by norm_num [candA, candB]⟩
  unfold rankCandidates
  exact List.mergeSort_of_sorted
    (by norm_num [List.pairwise_cons, candidateLE, candA, candB])

/-- C2 amended.  Step 3 sorts the candidates by `final_score` descending
with a stable sort: the result is a permutation of the input, pairwise
nonincreasing in final score, and candidates with equal final score keep
their pre-sort order; no further tie-break is applied. -/
theorem C2_rank_descending_stable (cands : List Candidate) :
    List.Perm (rankCandidates cands) cands ∧
    List.Pairwise (fun a b => b.final_score ≤ a.final_score) (rankCandidates cands) ∧
    (∀ a b : Candidate, a.final_score = b.final_score →
      List.Sublist [a, b] cands → List.Sublist [a, b] (rankCandidates cands)) := by
  have htrans : ∀ a b c : Candidate,
      candidateLE a b = true → candidateLE b c = true → candidateLE a c = true := by
    intro a b c hab hbc
    simp only [candidateLE, decide_eq_true_eq] at hab hbc ⊢
    exact hbc.trans hab
  have htotal : ∀ a b : Candidate, (candidateLE a b || candidateLE b a) = true := by
    intro a b
    simp only [candidateLE, Bool.or_eq_true, decide_eq_true_eq]
    exact le_total b.final_score a.final_score
  refine ⟨List.mergeSort_perm cands candidateLE, ?_, ?_⟩
  · exact (List.sorted_mergeSort htrans htotal cands).imp
      (fun h => by simpa [candidateLE] using h)
  · intro a b hfs hsub
    unfold rankCandidates
    exact List.pair_sublist_mergeSort htrans htotal
      (by simp [candidateLE, hfs]) hsub

/-- Witness for the amended C2 at a concrete input: the equal-score pair
keeps its input order in the ranked list. -/
theorem C2_rank_descending_stable_witness :
    List.Sublist [candA, candB] (rankCandidates [candA, candB]) :=
  (C2_rank_descending_stable [candA, candB]).2.2 candA candB rfl (List.Sublist.refl _)

/-- Helper: a candidate on which rule 1 fires fails the rule 1 filter
itself, so the replacement is always a subsequent candidate. -/
theorem overloadRulePred_c0_false (c0 : Candidate) (h : overloadRuleFires c0 = true) :
    overloadRulePred c0 = false := by
  unfold overloadRuleFires at h
  unfold overloadRulePred
  rw [Bool.or_eq_true] at h
  rcases h with h | h
  · simp [h]
  · have hlt : c0.workload_score < 3/10 := of_decide_eq_true h
    have hd : decide ((1:Rat)/2 ≤ c0.workload_score) = false :=
      decide_eq_false (by linarith)
    rw [hd, Bool.and_false]

/-- Helper: whatever rule 1 selects is not overloaded and has workload
score at least 0.3. -/
theorem r1Select_sound (c0 : Candidate) (rest : List Candidate) (c : Candidate)
    (hc : r1Select c0 rest = some c) :
    c.is_overloaded = false ∧ 3/10 ≤ c.workload_score := by
  unfold r1Select at hc
  by_cases hf : overloadRuleFires c0 = true
  · rw [if_pos hf, List.filter_head?] at hc
    have hcp : overloadRulePred c = true := List.find?_some hc
    simp only [overloadRulePred, Bool.and_eq_true, Bool.not_eq_true', decide_eq_true_eq] at hcp
    exact ⟨hcp.1.1, by linarith [hcp.2]⟩
  · rw [if_neg hf] at hc
    injection hc with hc
    subst hc
    simp only [Bool.not_eq_true, overloadRuleFires, Bool.or_eq_false_iff,
      decide_eq_false_iff_not] at hf
    exact ⟨hf.1, le_of_not_lt hf.2⟩

/-- Helper: when rule 1 fires, it selects the first subsequent candidate
passing the rule 1 filter. -/
theorem r1Select_fired (c0 : Candidate) (rest : List Candidate)
    (hf : overloadRuleFires c0 = true) :
    r1Select c0 rest = rest.find? overloadRulePred := by
  unfold r1Select
  rw [if_pos hf, List.filter_head?,
    List.find?_cons_of_neg _ (by simp [overloadRulePred_c0_false c0 hf])]

/-- Helper: after rule 3 the selected candidate never has five or more
recent assignments while a qualifying alternative sits in positions 2 to
5 of the ranked list. -/
theorem r3Apply_fair (candidates : List Candidate) (top2 : Candidate) :
    ¬(5 ≤ (r3Apply candidates top2).recent_assignments_count ∧
      ∃ d ∈ (candidates.drop 1).take 4,
        d.recent_assignments_count < 5 ∧ 0 < d.availability_score) := by
  unfold r3Apply
  by_cases h5 : r3Fires top2 = true
  · rw [if_pos h5]
    cases hfa : fairAlternatives candidates with
    | nil =>
      rintro ⟨-, d, hd, hdr, hda⟩
      have hnd := List.filter_eq_nil_iff.mp hfa d hd
      simp only [Bool.and_eq_true, decide_eq_true_eq, not_and] at hnd
      exact absurd hda (hnd hdr)
    | cons c cs =>
      dsimp only
      rintro ⟨h5c, -⟩
      have hcmem : c ∈ fairAlternatives candidates := by
        rw [hfa]; exact List.mem_cons_self c cs
      have hcp := (List.mem_filter.mp hcmem).2
      simp only [Bool.and_eq_true, decide_eq_true_eq] at hcp
      omega
  · rw [if_neg h5]
    rintro ⟨h5c, -⟩
    exact h5 (by simpa [r3Fires] using h5c)

/-- Helper: a non-escalated business-rules outcome assigns exactly the
candidate produced by applying rule 3 after rule 2 after rule 1. -/
theorem businessRules_top_shape (hour : Rat) (c0 : Candidate) (rest : List Candidate)
    (top : Candidate) (tags : List String) (conf : Rat)
    (h : businessRulesCore hour c0 rest = .assigned top tags conf) :
    ∃ top1, r1Select c0 rest = some top1 ∧
      top = r3Apply (c0 :: rest) (r2Apply (preferredTimezone hour) (c0 :: rest) top1) := by
  unfold businessRulesCore at h
  cases hsel : r1Select c0 rest with
  | none => rw [hsel] at h; cases h
  | some top1 =>
    rw [hsel] at h
    dsimp only at h
    split at h
    · cases h
    · injection h with h1 h2 h3
      exact ⟨top1, rfl, h1.symm⟩

/-- Counterexample to C3.  The overload-safety invariant fails: with the
similarity gate passed, rule 1 not firing and rule 3 swapping in an
alternative, the pipeline returns a normal decision whose primary
assignee (`cBob`, the only candidate with that email) has workload score
0.1, strictly below 0.3. -/
theorem C3_overload_safety_counterexample :
    (assignTicketWith 5 tktDemo simDemo [cAlice, cBob]).assignment_type = "normal" ∧
    (assignTicketWith 5 tktDemo simDemo [cAlice, cBob]).primary_assignee = some "bob@example.com" ∧
    (∀ c ∈ [cAlice, cBob], c.member_email = "bob@example.com" → c.workload_score < 3/10) := by
  have hrank : rankCandidates [cAlice, cBob] = [cAlice, cBob] := by
    unfold rankCandidates
    exact List.mergeSort_of_sorted
      (by norm_num [List.pairwise_cons, candidateLE, cAlice, cBob])
  have hmain : assignTicketWith 5 tktDemo simDemo [cAlice, cBob] =
      applyBusinessRules 5 tktDemo cAlice [cBob] := by
    unfold assignTicketWith
    rw [if_neg (by norm_num [maxSimilarity, simDemo]), if_neg (by simp), hrank]
  have hcore : businessRulesCore 5 cAlice [cBob] =
      .assigned cBob ["fair_distribution"] (4/5) := by
    norm_num [businessRulesCore, r1Select, overloadRuleFires, overloadRulePred,
      preferredTimezone, r2Fires, r2Apply, r3Fires, r3Apply, fairAlternatives,
      checkTimezoneMatch, calculateConfidence, strContains, charsContain, List.isPrefixOf,
      cAlice, cBob]
  rw [hmain]
  unfold applyBusinessRules
  rw [hcore]
  refine ⟨rfl, rfl, ?_⟩
  intro c hc hemail
  simp only [List.mem_cons, List.not_mem_nil, or_false] at hc
  rcases hc with rfl | rfl
  · exact absurd hemail (by decide)
  · norm_num [cBob]

/-- C3 amended.  Rule 1 works exactly as claimed: its selection is never
overloaded and has workload score at least 0.3 (at least 0.5 when it
replaces the top); when it fires it takes the first subsequent candidate
passing the filter, and escalates with reason `team_at_capacity` and
severity `critical` when none exists.  The global overload-safety
invariant however only holds for normal decisions in which neither rule 2
(timezone versus expertise) nor rule 3 (fair distribution) replaced the
primary selected by rule 1 — the last conjunct assumes exactly that the
two rules kept rule 1's selection (they may have fired and still kept
it): those two rules run after rule 1 and, when they do replace the
primary, may select a candidate with workload score below 0.3. -/
theorem C3_overload_rule_amended (hour : Rat) (ticket : TicketDetails)
    (c0 : Candidate) (rest : List Candidate) :
    (∀ c : Candidate, r1Select c0 rest = some c →
      c.is_overloaded = false ∧ 3/10 ≤ c.workload_score) ∧
    (overloadRuleFires c0 = true → r1Select c0 rest = rest.find? overloadRulePred) ∧
    (overloadRuleFires c0 = true → rest.find? overloadRulePred = none →
      applyBusinessRules hour ticket c0 rest =
        triggerHumanReview ticket.ticket_id ticket.title "team_at_capacity" "critical") ∧
    (∀ (top : Candidate) (tags : List String) (conf : Rat) (top1 : Candidate),
      businessRulesCore hour c0 rest = .assigned top tags conf →
      r1Select c0 rest = some top1 →
      r2Apply (preferredTimezone hour) (c0 :: rest) top1 = top1 →
      r3Apply (c0 :: rest) top1 = top1 →
      3/10 ≤ top.workload_score) := by
  refine ⟨fun c hc => r1Select_sound c0 rest c hc, r1Select_fired c0 rest, ?_, ?_⟩
  · intro hf hnone
    have hsel : r1Select c0 rest = none := by
      rw [r1Select_fired c0 rest hf, hnone]
    have hcore : businessRulesCore hour c0 rest = .review "team_at_capacity" "critical" := by
      unfold businessRulesCore
      rw [hsel]
    unfold applyBusinessRules
    rw [hcore]
  · intro top tags conf top1 h hsel he2 he3
    obtain ⟨top1', hsel', htop⟩ := businessRules_top_shape hour c0 rest top tags conf h
    rw [hsel] at hsel'
    injection hsel' with he
    subst he
    rw [htop, he2, he3]
    exact (r1Select_sound c0 rest top1 hsel).2

/-- Witness for the amended C3 at a concrete input: a healthy candidate
is kept by rules 1, 2 and 3 and its workload score is at least 0.3. -/
theorem C3_overload_rule_amended_witness :
    businessRulesCore 5 wCand [] = .assigned wCand [] (4/5) ∧
    r1Select wCand [] = some wCand ∧
    r2Apply (preferredTimezone 5) [wCand] wCand = wCand ∧
    r3Apply [wCand] wCand = wCand ∧
    3/10 ≤ wCand.workload_score := by
  have hcore : businessRulesCore 5 wCand [] = .assigned wCand [] (4/5) := by
    norm_num [businessRulesCore, r1Select, overloadRuleFires, overloadRulePred,
      preferredTimezone, r2Fires, r2Apply, r3Fires, r3Apply, fairAlternatives,
      checkTimezoneMatch, calculateConfidence, strContains, charsContain, List.isPrefixOf,
      wCand]
  have hsel : r1Select wCand [] = some wCand := by
    norm_num [r1Select, overloadRuleFires, wCand]
  have he2 : r2Apply (preferredTimezone 5) [wCand] wCand = wCand := by
    norm_num [r2Apply, r2Fires, preferredTimezone, checkTimezoneMatch,
      strContains, charsContain, List.isPrefixOf, wCand]
  have he3 : r3Apply [wCand] wCand = wCand := by
    norm_num [r3Apply, r3Fires, wCand]
  exact ⟨hcore, hsel, he2, he3,
    (C3_overload_rule_amended 5 tktDemo wCand []).2.2.2 wCand [] (4/5) wCand
      hcore hsel he2 he3⟩

/-- Counterexample to C4.  The fairness invariant fails as stated: the
primary (`dAlice`, six recent assignments) keeps the ticket although
`dBob`, inside the top five with positive availability, has fewer (five)
recent assignments, because the rule 3 scan requires strictly fewer than
five rather than fewer than the top. -/
theorem C4_fairness_cap_counterexample :
    (assignTicketWith 5 tktDemo simDemo [dAlice, dBob]).assignment_type = "normal" ∧
    (assignTicketWith 5 tktDemo simDemo [dAlice, dBob]).primary_assignee = some "alice4@example.com" ∧
    (rankCandidates [dAlice, dBob]).take 5 = [dAlice, dBob] ∧
    (∀ c ∈ [dAlice, dBob], c.member_email = "alice4@example.com" →
      5 ≤ c.recent_assignments_count) ∧
    dBob.recent_assignments_count < dAlice.recent_assignments_count ∧
    0 < dBob.availability_score := by
  have hrank : rankCandidates [dAlice, dBob] = [dAlice, dBob] := by
    unfold rankCandidates
    exact List.mergeSort_of_sorted
      (by norm_num [List.pairwise_cons, candidateLE, dAlice, dBob])
  have hmain : assignTicketWith 5 tktDemo simDemo [dAlice, dBob] =
      applyBusinessRules 5 tktDemo dAlice [dBob] := by
    unfold assignTicketWith
    rw [if_neg (by norm_num [maxSimilarity, simDemo]), if_neg (by simp), hrank]
  have hcore : businessRulesCore 5 dAlice [dBob] =
      .assigned dAlice ["fair_distribution"] (4/5) := by
    norm_num [businessRulesCore, r1Select, overloadRuleFires, overloadRulePred,
      preferredTimezone, r2Fires, r2Apply, r3Fires, r3Apply, fairAlternatives,
      checkTimezoneMatch, calculateConfidence, strContains, charsContain, List.isPrefixOf,
      dAlice, dBob]
  rw [hmain, hrank]
  unfold applyBusinessRules
  rw [hcore]
  refine ⟨rfl, rfl, rfl, ?_, by norm_num [dAlice, dBob], by norm_num [dBob]⟩
  intro c hc hemail
  simp only [List.mem_cons, List.not_mem_nil, or_false] at hc
  rcases hc with rfl | rfl
  · norm_num [dAlice]
  · exact absurd hemail (by decide)

/-- C4 amended.  For every normal decision the primary does not have five
or more recent assignments while some candidate in positions 2 to 5 of
the ranked list has strictly fewer than five recent assignments and a
positive availability score (this is the guarantee the rule 3 scan
actually gives: its threshold is the absolute bound five, not "fewer than
the primary"). -/
theorem C4_fair_distribution_amended (hour : Rat) (c0 : Candidate) (rest : List Candidate)
    (top : Candidate) (tags : List String) (conf : Rat)
    (h : businessRulesCore hour c0 rest = .assigned top tags conf) :
    ¬(5 ≤ top.recent_assignments_count ∧
      ∃ d ∈ rest.take 4, d.recent_assignments_count < 5 ∧ 0 < d.availability_score) := by
  obtain ⟨top1, hsel, htop⟩ := businessRules_top_shape hour c0 rest top tags conf h
  subst htop
  have hfair := r3Apply_fair (c0 :: rest) (r2Apply (preferredTimezone hour) (c0 :: rest) top1)
  simpa using hfair

/-- Witness for the amended C4 at a concrete input. -/
theorem C4_fair_distribution_amended_witness :
    businessRulesCore 5 wCand [] = .assigned wCand [] (4/5) ∧
    ¬(5 ≤ wCand.recent_assignments_count ∧
      ∃ d ∈ ([] : List Candidate).take 4,
        d.recent_assignments_count < 5 ∧ 0 < d.availability_score) := by
  have hcore : businessRulesCore 5 wCand [] = .assigned wCand [] (4/5) := by
    norm_num [businessRulesCore, r1Select, overloadRuleFires, overloadRulePred,
      preferredTimezone, r2Fires, r2Apply, r3Fires, r3Apply, fairAlternatives,
      checkTimezoneMatch, calculateConfidence, strContains, charsContain, List.isPrefixOf,
      wCand]
  exact ⟨hcore, C4_fair_distribution_amended 5 wCand [] wCand [] (4/5) hcore⟩

/-- C5 (code bug evidence).  For the concrete failing input — a member
with exactly 3 hits in `similar_tickets`, Medium priority, timezone
outside both zones, during the morning overlap window — the pipeline
passes the dataclass default `solved_similar_count = 0` (the assignment
`candidate.solved_similar_count = solved_count` is commented out in
`_calculate_similarity_score`), so the produced timezone score is the
unboosted 0.6, while the score computed with the actual solved-similar
count of 3, as the spec requires, is floored at 0.85. -/
theorem C5_expertise_boost_dead :
    countMemberHits "chris@example.com" simC5 = 3 ∧
    (evaluateCandidate 1 chrisMember false false false [] 0 tktC5 simC5
      mediumWeights [] [] []).solved_similar_count = 0 ∧
    (evaluateCandidate 1 chrisMember false false false [] 0 tktC5 simC5
      mediumWeights [] [] []).timezone_score = 3/5 ∧
    calculateTimezoneScore 1 "Europe/Berlin" (some "Medium")
      (countMemberHits "chris@example.com" simC5) = 17/20 := by
  have hA : strContains "Europe/Berlin" "Asia/Kolkata" = false := by decide
  have hB : strContains "Europe/Berlin" "Asia/Calcutta" = false := by decide
  have hC : strContains "Europe/Berlin" "Asia/" = false := by decide
  have hD : strContains "Europe/Berlin" "America/" = false := by decide
  have hE : strContains "Europe/Berlin" "US/" = false := by decide
  have hMC : ("Medium" : String) ≠ "Critical" := by decide
  have hMH : ("Medium" : String) ≠ "High" := by decide
  have hML : ("Medium" : String) ≠ "Low" := by decide
  refine ⟨by decide, by decide, ?_, ?_⟩
  · show calculateTimezoneScore 1 "Europe/Berlin" (some "Medium") 0 = 3/5
    norm_num [calculateTimezoneScore, timezoneBase, strictUrgent, expertiseAdjust,
      inMorningOverlap, inEveningOverlap, hA, hB, hC, hD, hE, hMC, hMH, hML]
  · have h3 : countMemberHits "chris@example.com" simC5 = 3 := by decide
    rw [h3]
    norm_num [calculateTimezoneScore, timezoneBase, strictUrgent, expertiseAdjust,
      inMorningOverlap, inEveningOverlap, hA, hB, hC, hD, hE, hMC, hMH, hML]

/-- C6.  The workload score is the clamped inverse of the accumulated
effective load (priority weight times age penalty times status weight,
statuses in the title-case vocabulary the spec declares), the overload
flag holds exactly at 24.0 (80 percent of the capacity of 30), and an
empty active set gives score 1 and no overload. -/
theorem C6_workload_score (tickets : List ActiveTicket)
    (h : ∀ t ∈ tickets, t.priority = "Critical" ∨ t.priority = "High" ∨
      t.priority = "Medium" ∨ t.priority = "Low") :
    (calculateWorkloadScore tickets).score = min (max 0 (1 - specTotalLoad tickets / 30)) 1 ∧
    (calculateWorkloadScore tickets).weighted_workload = specTotalLoad tickets ∧
    ((calculateWorkloadScore tickets).is_overloaded = true ↔ 24 ≤ specTotalLoad tickets) ∧
    (tickets = [] → (calculateWorkloadScore tickets).score = 1 ∧
      (calculateWorkloadScore tickets).is_overloaded = false) := by
  have hmap : (tickets.map ticketLoad).sum = specTotalLoad tickets := by
    unfold specTotalLoad
    congr 1
    exact List.map_congr_left (fun t ht => ticketLoad_eq_spec t (h t ht))
  rcases tickets with _ | ⟨t, ts⟩
  · exact ⟨by norm_num [calculateWorkloadScore, specTotalLoad],
      by simp [calculateWorkloadScore, specTotalLoad],
      by simp [calculateWorkloadScore, specTotalLoad],
      fun _ => ⟨rfl, rfl⟩⟩
  · unfold calculateWorkloadScore
    rw [if_neg (by simp)]
    dsimp only
    rw [hmap]
    refine ⟨by rw [min_comm], rfl, ?_, by simp⟩
    rw [decide_eq_true_eq]
    constructor <;> intro hle <;> [linarith; linarith]

/-- Witness for C6 at a concrete input with all three status kinds. -/
theorem C6_workload_score_witness :
    (∀ t ∈ ticketsC6, t.priority = "Critical" ∨ t.priority = "High" ∨
      t.priority = "Medium" ∨ t.priority = "Low") ∧
    (calculateWorkloadScore ticketsC6).score = min (max 0 (1 - specTotalLoad ticketsC6 / 30)) 1 :=
  ⟨by decide, (C6_workload_score ticketsC6 (by decide)).1⟩

/-- C7.  The availability score is computed first-match-wins: PTO gives
0, then a regional holiday gives 0, then a global holiday gives the
priority-indexed override (Critical 0.5, High 0.3, otherwise 0), else 1;
in particular a candidate on PTO or on a regional holiday scores 0
unconditionally. -/
theorem C7_availability_first_match (pto reg glob : Bool) (prio : String) :
    ((pto = true ∨ reg = true) →
      (calculateAvailabilityScore pto reg glob prio).score = 0) ∧
    (pto = false → reg = false → glob = true →
      (calculateAvailabilityScore pto reg glob prio).score =
        (if prio = "Critical" then 1/2 else if prio = "High" then 3/10 else 0)) ∧
    (pto = false → reg = false → glob = false →
      (calculateAvailabilityScore pto reg glob prio).score = 1) := by
  refine ⟨?_, ?_, ?_⟩
  · intro h
    rcases h with rfl | rfl
    · simp [calculateAvailabilityScore]
    · cases pto <;> simp [calculateAvailabilityScore]
  · rintro rfl rfl rfl
    unfold calculateAvailabilityScore
    simp only [Bool.false_eq_true, if_false, if_true]
    split_ifs with h1 h2 h3 h4 <;> first | rfl | (exfalso; norm_num at *)
  · rintro rfl rfl rfl
    simp [calculateAvailabilityScore]

/-- Witness for C7 at concrete inputs: a regional holiday vetoes a
Critical ticket even during a global holiday. -/
theorem C7_availability_first_match_witness :
    (calculateAvailabilityScore false true true "Critical").score = 0 :=
  (C7_availability_first_match false true true "Critical").1 (Or.inr rfl)

/-- C8.  The four weight rows equal the published matrix and each sums to
exactly 1; any other priority string falls back to the Medium row; and
the final score of every evaluated candidate is the weighted sum of its
five component scores. -/
theorem C8_weight_matrix :
    (weightsFor "Critical" = specWeightRow "Critical" ∧
     weightsFor "High" = specWeightRow "High" ∧
     weightsFor "Medium" = specWeightRow "Medium" ∧
     weightsFor "Low" = specWeightRow "Low") ∧
    (∀ q : String, wsum (weightsFor q) = 1) ∧
    (∀ q : String, q ≠ "Critical" → q ≠ "High" → q ≠ "Medium" → q ≠ "Low" →
      weightsFor q = weightsFor "Medium") ∧
    (∀ (hour : Rat) (member : TeamMemberInfo) (pto reg glob : Bool)
       (tickets : List ActiveTicket) (recent : Nat) (ticket : TicketDetails)
       (sims : List SimilarTicket) (w : Weights) (reqC reqI reqN : List String),
      (evaluateCandidate hour member pto reg glob tickets recent ticket sims w reqC reqI reqN).final_score =
        (evaluateCandidate hour member pto reg glob tickets recent ticket sims w reqC reqI reqN).similarity_score
            * ((w.similarity : Rat) : Real)
          + (((evaluateCandidate hour member pto reg glob tickets recent ticket sims w reqC reqI reqN).skill_match_score
              * w.skill : Rat) : Real)
          + (((evaluateCandidate hour member pto reg glob tickets recent ticket sims w reqC reqI reqN).availability_score
              * w.availability : Rat) : Real)
          + (((evaluateCandidate hour member pto reg glob tickets recent ticket sims w reqC reqI reqN).workload_score
              * w.workload : Rat) : Real)
          + (((evaluateCandidate hour member pto reg glob tickets recent ticket sims w reqC reqI reqN).timezone_score
              * w.timezone : Rat) : Real)) := by
  have h1 : ("Medium" : String) ≠ "Critical" := by decide
  have h2 : ("Medium" : String) ≠ "High" := by decide
  have h3 : ("Medium" : String) ≠ "Low" := by decide
  have h4 : ("Low" : String) ≠ "Critical" := by decide
  have h5 : ("Low" : String) ≠ "High" := by decide
  have h6 : ("Low" : String) ≠ "Medium" := by decide
  refine ⟨⟨by norm_num [weightsFor, specWeightRow, mediumWeights],
          by norm_num [weightsFor, specWeightRow, mediumWeights],
          by norm_num [weightsFor, specWeightRow, mediumWeights, h1, h2, h3],
          by norm_num [weightsFor, specWeightRow, mediumWeights, h4, h5, h6]⟩, ?_, ?_, ?_⟩
  · intro q
    unfold weightsFor wsum mediumWeights
    split_ifs <;> norm_num
  · intro q h1 h2 h3 h4
    simp [weightsFor, h1, h2, h3, h4]
  · intros
    rfl

/-- Witness for C8 at a concrete input: an unknown priority string falls
back to the Medium weight row. -/
theorem C8_weight_matrix_witness :
    weightsFor "Planning" = weightsFor "Medium" :=
  C8_weight_matrix.2.2.1 "Planning" (by decide) (by decide) (by decide) (by decide)

/-- C9.  Canonicalization of the five ServiceNow wire priorities (with
`Planning` mapped to `Low`), modelled from the spec because the mapping
layer feeding the engine is not among the provided sources; the spec-side
result is always one of the four canonical levels, and the engine itself
downgrades any unknown priority string to the Medium weight row without
failing. -/
theorem C9_priority_canonicalization :
    (canonicalizePriority "1 - Critical" = "Critical" ∧
     canonicalizePriority "2 - High" = "High" ∧
     canonicalizePriority "3 - Medium" = "Medium" ∧
     canonicalizePriority "4 - Low" = "Low" ∧
     canonicalizePriority "5 - Planning" = "Low") ∧
    (∀ wire : String,
      canonicalizePriority wire = "Critical" ∨ canonicalizePriority wire = "High" ∨
      canonicalizePriority wire = "Medium" ∨ canonicalizePriority wire = "Low") ∧
    (∀ p : String, p ≠ "Critical" → p ≠ "High" → p ≠ "Medium" → p ≠ "Low" →
      weightsFor p = weightsFor "Medium") := by
  refine ⟨⟨rfl, rfl, rfl, rfl, rfl⟩, ?_, ?_⟩
  · intro wire
    unfold canonicalizePriority
    split_ifs <;> simp
  · intro p h1 h2 h3 h4
    simp [weightsFor, h1, h2, h3, h4]

/-- Witness for C9 at a concrete input: the raw wire string is not a
weight-table key and falls back to the Medium row. -/
theorem C9_priority_canonicalization_witness :
    weightsFor "5 - Planning" = weightsFor "Medium" :=
  C9_priority_canonicalization.2.2 "5 - Planning" (by decide) (by decide) (by decide) (by decide)

/-- Helper: the window and zone base score is always in [0, 1]. -/
theorem timezoneBase_bounds (hour : Rat) (isIst isUs : Bool) :
    0 ≤ timezoneBase hour isIst isUs ∧ timezoneBase hour isIst isUs ≤ 1 := by
  unfold timezoneBase
  split_ifs <;> norm_num

/-- Helper: the strict-enforcement step preserves the [0, 1] range. -/
theorem strictUrgent_bounds (priority : Option String) (b : Rat)
    (hb : 0 ≤ b ∧ b ≤ 1) :
    0 ≤ strictUrgent priority b ∧ strictUrgent priority b ≤ 1 := by
  unfold strictUrgent
  constructor <;> split_ifs <;> linarith [hb.1, hb.2]

/-- Helper: the cross-timezone expertise adjustment preserves [0, 1]. -/
theorem expertiseAdjust_bounds (hour : Rat) (priority : Option String) (solved : Nat)
    (s : Rat) (hs : 0 ≤ s ∧ s ≤ 1) :
    0 ≤ expertiseAdjust hour priority solved s ∧ expertiseAdjust hour priority solved s ≤ 1 := by
  unfold expertiseAdjust
  constructor <;> split_ifs <;> linarith [hs.1, hs.2]

/-- Helper: the timezone score is always in [0, 1]. -/
theorem timezone_bounds (hour : Rat) (tz : String) (prio : Option String) (solved : Nat) :
    0 ≤ calculateTimezoneScore hour tz prio solved ∧
    calculateTimezoneScore hour tz prio solved ≤ 1 := by
  unfold calculateTimezoneScore
  exact expertiseAdjust_bounds _ _ _ _ (strictUrgent_bounds _ _ (timezoneBase_bounds _ _ _))

/-- Helper: the availability score is always in [0, 1]. -/
theorem availability_bounds (p r g : Bool) (prio : String) :
    0 ≤ (calculateAvailabilityScore p r g prio).score ∧
    (calculateAvailabilityScore p r g prio).score ≤ 1 := by
  unfold calculateAvailabilityScore
  split_ifs <;> norm_num

/-- Helper: the workload score is always in [0, 1]. -/
theorem workload_bounds (tickets : List ActiveTicket) :
    0 ≤ (calculateWorkloadScore tickets).score ∧ (calculateWorkloadScore tickets).score ≤ 1 := by
  unfold calculateWorkloadScore
  split_ifs
  · norm_num
  · dsimp only
    constructor
    · exact le_min (le_max_left 0 _) zero_le_one
    · exact min_le_right _ _

/-- Helper: the similarity score is in [0, 1] whenever every input
similarity score is in [0, 1]. -/
theorem similarity_bounds (email : String) (sims : List SimilarTicket)
    (h : ∀ t ∈ sims, 0 ≤ t.similarity_score ∧ t.similarity_score ≤ 1) :
    0 ≤ calculateSimilarityScore email sims ∧ calculateSimilarityScore email sims ≤ 1 := by
  unfold calculateSimilarityScore
  by_cases he : (memberSimilar email sims).isEmpty
  · rw [if_pos he]; norm_num
  · rw [if_neg he]
    dsimp only
    have hmem : ∀ t ∈ memberSimilar email sims,
        0 ≤ t.similarity_score ∧ t.similarity_score ≤ 1 := by
      intro t ht
      exact h t (List.mem_of_mem_filter ht)
    have hlen : 0 < (memberSimilar email sims).length := by
      cases hms : memberSimilar email sims with
      | nil => rw [hms] at he; simp at he
      | cons a l => simp [hms]
    have hlog6 : 0 < Real.log 6 := Real.log_pos (by norm_num)
    have hlogn : 0 ≤ Real.log ((memberSimilar email sims).length + 1) := by
      apply Real.log_nonneg
      have : (0:Real) ≤ (memberSimilar email sims).length := by positivity
      linarith
    have he0 : 0 ≤ min (Real.log ((memberSimilar email sims).length + 1) / Real.log 6) 1 :=
      le_min (div_nonneg hlogn hlog6.le) zero_le_one
    have hsum0 : 0 ≤ ((memberSimilar email sims).map
        (fun t => ((t.similarity_score : Rat) : Real))).sum := by
      apply List.sum_nonneg
      intro x hx
      obtain ⟨t, ht, rfl⟩ := List.mem_map.mp hx
      exact_mod_cast (hmem t ht).1
    have hsum1 : ((memberSimilar email sims).map
        (fun t => ((t.similarity_score : Rat) : Real))).sum ≤ (memberSimilar email sims).length := by
      have hle := List.sum_le_card_nsmul ((memberSimilar email sims).map
        (fun t => ((t.similarity_score : Rat) : Real))) 1 ?_
      · simpa [nsmul_eq_mul] using hle
      · intro x hx
        obtain ⟨t, ht, rfl⟩ := List.mem_map.mp hx
        exact_mod_cast (hmem t ht).2
    have hcast : (0:Real) < (memberSimilar email sims).length := by exact_mod_cast hlen
    have havg0 : 0 ≤ ((memberSimilar email sims).map
        (fun t => ((t.similarity_score : Rat) : Real))).sum / (memberSimilar email sims).length :=
      div_nonneg hsum0 hcast.le
    have havg1 : ((memberSimilar email sims).map
        (fun t => ((t.similarity_score : Rat) : Real))).sum / (memberSimilar email sims).length ≤ 1 := by
      rw [div_le_one hcast]
      exact hsum1
    constructor
    · apply le_min _ zero_le_one
      have h1 : 0 ≤ min (Real.log ((memberSimilar email sims).length + 1) / Real.log 6) 1 * (3/10) :=
        mul_nonneg he0 (by norm_num)
      have h2 : 0 ≤ ((memberSimilar email sims).map
          (fun t => ((t.similarity_score : Rat) : Real))).sum / (memberSimilar email sims).length * (7/10) :=
        mul_nonneg havg0 (by norm_num)
      linarith
    · exact min_le_right _ _

/-- Helper: the weighted skill combination is in [0, 1] when the three
match ratios are. -/
theorem skillCombo_bounds (cm im nm : Rat)
    (hc : 0 ≤ cm ∧ cm ≤ 1) (hi : 0 ≤ im ∧ im ≤ 1) (hn : 0 ≤ nm ∧ nm ≤ 1) :
    0 ≤ min (cm * (3/5) + im * (3/10) + nm * (1/10)) 1 ∧
    min (cm * (3/5) + im * (3/10) + nm * (1/10)) 1 ≤ 1 := by
  constructor
  · apply le_min _ zero_le_one
    have h1 := mul_nonneg hc.1 (show (0:Rat) ≤ 3/5 by norm_num)
    have h2 := mul_nonneg hi.1 (show (0:Rat) ≤ 3/10 by norm_num)
    have h3 := mul_nonneg hn.1 (show (0:Rat) ≤ 1/10 by norm_num)
    linarith
  · exact min_le_right _ _

/-- Helper: the skill match score is always in [0, 1]. -/
theorem skill_bounds (msk reqC reqI reqN : List String) :
    0 ≤ calculateSkillMatchScore msk reqC reqI reqN ∧
    calculateSkillMatchScore msk reqC reqI reqN ≤ 1 := by
  have hratio : ∀ (req : List String),
      0 ≤ ((req.countP (fun s => (getMemberSkills msk).contains s) : Nat) : Rat) /
        ((max req.length 1 : Nat) : Rat) ∧
      ((req.countP (fun s => (getMemberSkills msk).contains s) : Nat) : Rat) /
        ((max req.length 1 : Nat) : Rat) ≤ 1 := by
    intro req
    have hone : (1:Nat) ≤ max req.length 1 := le_max_right _ _
    have hd : (0:Rat) < ((max req.length 1 : Nat) : Rat) := by exact_mod_cast hone
    constructor
    · positivity
    · rw [div_le_one hd]
      exact_mod_cast le_trans (List.countP_le_length _) (le_max_left _ _)
  unfold calculateSkillMatchScore
  dsimp only
  by_cases hcrit :
      ((reqC.countP (fun s => (getMemberSkills msk).contains s) : Nat) : Rat) /
        ((max reqC.length 1 : Nat) : Rat) < 1/2 ∧ ¬reqC.isEmpty = true
  · rw [if_pos hcrit]
    norm_num
  · rw [if_neg hcrit]
    refine skillCombo_bounds _ _ _ (hratio reqC) ?_ ?_
    · split_ifs with h
      · norm_num
      · exact hratio reqI
    · split_ifs with h
      · norm_num
      · exact hratio reqN

/-- Helper: every weight row has nonnegative entries summing to one. -/
theorem weightsFor_facts (q : String) :
    (0 ≤ (weightsFor q).similarity ∧ 0 ≤ (weightsFor q).skill ∧ 0 ≤ (weightsFor q).availability ∧
      0 ≤ (weightsFor q).workload ∧ 0 ≤ (weightsFor q).timezone) ∧
    wsum (weightsFor q) = 1 := by
  unfold weightsFor mediumWeights wsum
  split_ifs <;> norm_num

/-- Helper: a convex combination of [0, 1] scores with nonnegative weights
summing to one stays in [0, 1]. -/
theorem finalCombo_bounds (w : Weights)
    (hw : 0 ≤ w.similarity ∧ 0 ≤ w.skill ∧ 0 ≤ w.availability ∧ 0 ≤ w.workload ∧ 0 ≤ w.timezone)
    (hsum : wsum w = 1)
    (s : Real) (k a b t : Rat)
    (hs : 0 ≤ s ∧ s ≤ 1) (hk : 0 ≤ k ∧ k ≤ 1) (ha : 0 ≤ a ∧ a ≤ 1)
    (hb : 0 ≤ b ∧ b ≤ 1) (ht : 0 ≤ t ∧ t ≤ 1) :
    0 ≤ s * ((w.similarity : Rat) : Real) + ((k * w.skill : Rat) : Real)
        + ((a * w.availability : Rat) : Real) + ((b * w.workload : Rat) : Real)
        + ((t * w.timezone : Rat) : Real) ∧
    s * ((w.similarity : Rat) : Real) + ((k * w.skill : Rat) : Real)
        + ((a * w.availability : Rat) : Real) + ((b * w.workload : Rat) : Real)
        + ((t * w.timezone : Rat) : Real) ≤ 1 := by
  obtain ⟨hw1, hw2, hw3, hw4, hw5⟩ := hw
  unfold wsum at hsum
  have hw1R : (0:Real) ≤ (w.similarity : Real) := by exact_mod_cast hw1
  have hw2R : (0:Real) ≤ (w.skill : Real) := by exact_mod_cast hw2
  have hw3R : (0:Real) ≤ (w.availability : Real) := by exact_mod_cast hw3
  have hw4R : (0:Real) ≤ (w.workload : Real) := by exact_mod_cast hw4
  have hw5R : (0:Real) ≤ (w.timezone : Real) := by exact_mod_cast hw5
  have hsumR : (w.similarity : Real) + (w.skill : Real) + (w.availability : Real)
      + (w.workload : Real) + (w.timezone : Real) = 1 := by exact_mod_cast hsum
  have hkR : ((k:Real) ≤ 1) := by exact_mod_cast hk.2
  have hk0R : (0:Real) ≤ (k:Real) := by exact_mod_cast hk.1
  have haR : ((a:Real) ≤ 1) := by exact_mod_cast ha.2
  have ha0R : (0:Real) ≤ (a:Real) := by exact_mod_cast ha.1
  have hbR : ((b:Real) ≤ 1) := by exact_mod_cast hb.2
  have hb0R : (0:Real) ≤ (b:Real) := by exact_mod_cast hb.1
  have htR : ((t:Real) ≤ 1) := by exact_mod_cast ht.2
  have ht0R : (0:Real) ≤ (t:Real) := by exact_mod_cast ht.1
  push_cast
  constructor
  · have t1 := mul_nonneg hs.1 hw1R
    have t2 := mul_nonneg hk0R hw2R
    have t3 := mul_nonneg ha0R hw3R
    have t4 := mul_nonneg hb0R hw4R
    have t5 := mul_nonneg ht0R hw5R
    linarith
  · have u1 : s * (w.similarity : Real) ≤ (w.similarity : Real) :=
      mul_le_of_le_one_left hw1R hs.2
    have u2 : (k:Real) * (w.skill : Real) ≤ (w.skill : Real) :=
      mul_le_of_le_one_left hw2R hkR
    have u3 : (a:Real) * (w.availability : Real) ≤ (w.availability : Real) :=
      mul_le_of_le_one_left hw3R haR
    have u4 : (b:Real) * (w.workload : Real) ≤ (w.workload : Real) :=
      mul_le_of_le_one_left hw4R hbR
    have u5 : (t:Real) * (w.timezone : Real) ≤ (w.timezone : Real) :=
      mul_le_of_le_one_left hw5R htR
    linarith

/-- C10.  For every candidate produced by the engine evaluation, all five
component scores lie in [0, 1] provided the input similarity scores do,
and the final score, a weighted sum with nonnegative weights summing to
one, also lies in [0, 1]. -/
theorem C10_score_bounds (hour : Rat) (member : TeamMemberInfo)
    (pto reg glob : Bool) (tickets : List ActiveTicket) (recent : Nat)
    (ticket : TicketDetails) (sims : List SimilarTicket) (q : String)
    (reqC reqI reqN : List String)
    (h : ∀ t ∈ sims, 0 ≤ t.similarity_score ∧ t.similarity_score ≤ 1)
    (c : EvalCandidate)
    (hc : c = evaluateCandidate hour member pto reg glob tickets recent ticket sims
      (weightsFor q) reqC reqI reqN) :
    (0 ≤ c.similarity_score ∧ c.similarity_score ≤ 1) ∧
    (0 ≤ c.skill_match_score ∧ c.skill_match_score ≤ 1) ∧
    (0 ≤ c.availability_score ∧ c.availability_score ≤ 1) ∧
    (0 ≤ c.workload_score ∧ c.workload_score ≤ 1) ∧
    (0 ≤ c.timezone_score ∧ c.timezone_score ≤ 1) ∧
    (0 ≤ c.final_score ∧ c.final_score ≤ 1) := by
  subst hc
  refine ⟨?_, ?_, ?_, ?_, ?_, ?_⟩
  · exact similarity_bounds member.email sims h
  · exact skill_bounds member.skills reqC reqI reqN
  · exact availability_bounds pto reg glob (ticket.priority.getD "Medium")
  · exact workload_bounds tickets
  · exact timezone_bounds hour (member.timezone.getD "UTC") ticket.priority 0
  · exact finalCombo_bounds (weightsFor q) (weightsFor_facts q).1 (weightsFor_facts q).2
      (calculateSimilarityScore member.email sims)
      (calculateSkillMatchScore member.skills reqC reqI reqN)
      (calculateAvailabilityScore pto reg glob (ticket.priority.getD "Medium")).score
      (calculateWorkloadScore tickets).score
      (calculateTimezoneScore hour (member.timezone.getD "UTC") ticket.priority 0)
      (similarity_bounds member.email sims h)
      (skill_bounds member.skills reqC reqI reqN)
      (availability_bounds pto reg glob (ticket.priority.getD "Medium"))
      (workload_bounds tickets)
      (timezone_bounds hour (member.timezone.getD "UTC") ticket.priority 0)

/-- Witness for C10 at a concrete input. -/
theorem C10_score_bounds_witness :
    (∀ t ∈ simW, 0 ≤ t.similarity_score ∧ t.similarity_score ≤ 1) ∧
    (0 ≤ (evaluateCandidate 5 memberW false false false [] 0 tktDemo simW
        (weightsFor "Medium") [] [] []).final_score ∧
      (evaluateCandidate 5 memberW false false false [] 0 tktDemo simW
        (weightsFor "Medium") [] [] []).final_score ≤ 1) :=
  ⟨by norm_num [simW],
   (C10_score_bounds 5 memberW false false false [] 0 tktDemo simW "Medium" [] [] []
     (by norm_num [simW]) _ rfl).2.2.2.2.2⟩

end TicketAI
